import Mathlib

/-!
Shallow embedding of the `easemob` Go client (easemob.go and the token/push
file) for verification of its rate-limiter, token-cache and lifecycle
behaviour.

Modelling conventions:
* Time instants and durations are `Int` nanoseconds; `second` is
  `time.Second`.  `time.Now()` becomes an explicit `now` parameter and
  `t.Before(u)` is `t < u`.
* The buffered channel `limiterChan chan bool` is modelled by `Chan`:
  its capacity, the number of buffered values (the pool occupancy) and its
  closed flag.  A Go send on a closed channel panics; a receive on an empty
  open channel blocks.
* `context.Context` is modelled by a `cancelled : Bool` flag (whether
  `ctx.Done()` is ready).  A Go `select` with several ready cases chooses
  randomly; that choice is made explicit by a `pick : Bool` oracle argument,
  so theorems can quantify over every possible scheduling of the select.
* `time.Ticker` is modelled by its period and a stopped flag.  Overwriting
  the `limiterResetTicker` field does not destroy the old ticker object in
  Go; the embedding keeps every displaced ticker in `retiredTickers` so that
  its running/stopped status stays observable.
* The HTTP layer (`ureq`) is abstracted into an `HttpOutcome` oracle: either
  a transport error from `End()` or a response with its `OK()` flag,
  `Status`, body text and parsed JSON fields.  The transport handle
  `ureq.Client` is modelled by its timeout and header list; `Clone` copies
  it and `Set` prepends a header.
* Functions that can block forever or panic return a `CallRes` with the
  extra outcomes `blocked` and `panicked`.
-/

/-- One second, in nanoseconds (Go `time.Second`). -/
def second : Int := 1000000000

/-- Go `unicode.IsSpace` restricted to the ASCII whitespace characters
(the repository only ever sees ASCII tokens). -/
def isSpaceChar (c : Char) : Bool :=
  c = ' ' || c = '\t' || c = '\n' || c = '\r' || c = '\x0b' || c = '\x0c'

/-- Go `strings.TrimSpace`: drop leading and trailing whitespace. -/
def trimSpace (s : String) : String :=
  String.mk (((s.data.dropWhile isSpaceChar).reverse.dropWhile isSpaceChar).reverse)

/-- Model of `time.Ticker`: its period and whether `Stop` has been called. -/
structure Ticker where
  interval : Int
  stopped : Bool
deriving DecidableEq, Repr

/-- Model of the buffered channel `chan bool`: capacity, number of buffered
values (pool occupancy) and the closed flag. -/
structure Chan where
  cap : Nat
  buffered : Nat
  closed : Bool
deriving DecidableEq, Repr

/-- Model of the `ureq.Client` transport handle: configured timeout and the
headers set on it. -/
structure Client where
  timeout : Int
  headers : List (String × String)
deriving DecidableEq, Repr

/-- `ureq.Client.Clone`: an independent copy of the template. -/
def Client.clone (c : Client) : Client := c

/-- `ureq.Client.Set`: attach a header to the handle. -/
def Client.set (c : Client) (k v : String) : Client :=
  { c with headers := (k, v) :: c.headers }

/-- `ureq.New()`: the fresh transport template. -/
def ureqNew : Client := { timeout := 0, headers := [] }

/-- The parsed JSON body of a token response (`refreshTokenResp`). -/
structure RefreshTokenResp where
  application : String
  accessToken : String
  expiresIn : Int
deriving DecidableEq, Repr

/-- An HTTP response as the code observes it: `res.OK()`, `res.Status`, the
body text returned by `res.Text()`, whether `res.JSON` parses, and the
parsed fields (meaningful only when `jsonOk` is true). -/
structure HttpResponse where
  ok : Bool
  status : String
  body : String
  jsonOk : Bool
  parsed : RefreshTokenResp
deriving DecidableEq, Repr

/-- Outcome of the network round trip started by `End()`. -/
inductive HttpOutcome where
  | err (msg : String)
  | res (r : HttpResponse)
deriving DecidableEq, Repr

/-- Model of the `Easemob` struct.  `retiredTickers` keeps the ticker
objects displaced by `SetLimiter` (the Go heap keeps them alive and
running), and `limiterStarted` records whether the background `limiter`
goroutine is running. -/
structure Easemob where
  host : String
  orgName : String
  appName : String
  clientId : String
  clientSecret : String
  client : Client
  accessToken : String
  accessTokenExpiresAt : Int
  limiterResetTicker : Ticker
  retiredTickers : List Ticker
  limiterChan : Chan
  limiterStarted : Bool
deriving DecidableEq, Repr

/-- Result of `getLimiter`: admitted, returned `ctx.Err()`, blocked forever
waiting for the pool, or panicked by sending on a closed channel. -/
inductive LimiterRes where
  | ok
  | ctxErr
  | blocked
  | panicked
deriving DecidableEq, Repr

/-- The errors `RefreshToken` can return, one constructor per
`fmt.Errorf`/`errors.New` site, carrying the formatted-in data. -/
inductive RefreshErr where
  | getClientErr
  | transportErr (msg : String)
  | statusErr (status : String) (body : String)
  | jsonErr
  | emptyTokenErr
deriving DecidableEq, Repr

/-- The errors `GetAccessClient` can return: the limiter's `ctx.Err()`, or a
wrapped `refresh token error`. -/
inductive AccessErr where
  | limiterErr
  | refreshTokenErr (e : RefreshErr)
deriving DecidableEq, Repr

/-- Result of a client-returning call: success, an error, blocking forever,
or a propagated panic. -/
inductive CallRes (ε α : Type) where
  | ok (a : α)
  | err (e : ε)
  | blocked
  | panicked
deriving DecidableEq, Repr

/-- Executing the send `eb.limiterChan <- true` once the select has chosen
that case: panics if the channel is closed, otherwise deposits one value. -/
def chanSend (ch : Chan) : LimiterRes × Chan :=
  if ch.closed then (LimiterRes.panicked, ch)
  else (LimiterRes.ok, { ch with buffered := ch.buffered + 1 })

/-- `getLimiter`: the two-way select between sending on `limiterChan` and
`ctx.Done()`.  The send case is ready when the channel is closed or not
full; `pick` resolves the random choice when both cases are ready. -/
def getLimiter (ch : Chan) (cancelled pick : Bool) : LimiterRes × Chan :=
  let sendReady := ch.closed || decide (ch.buffered < ch.cap)
  if sendReady && cancelled then
    if pick then chanSend ch else (LimiterRes.ctxErr, ch)
  else if sendReady then chanSend ch
  else if cancelled then (LimiterRes.ctxErr, ch)
  else (LimiterRes.blocked, ch)

/-- The body of the reset tick in `limiter()`: the loop
`for i := 0; i < cap(limiterChan); i++ \x7b <-limiterChan \x7d` performing
`count` receives one at a time.  A receive takes a buffered value if one is
present, returns immediately on a closed empty channel, and otherwise
blocks waiting for a future send — in which case the drain does not
complete without consuming future acquisitions, modelled as `none`. -/
def limiterDrain : Nat → Chan → Option Chan
  | 0, ch => some ch
  | count + 1, ch =>
    match ch.buffered with
    | 0 =>
      if ch.closed then limiterDrain count ch
      else none
    | b + 1 => limiterDrain count { ch with buffered := b }

/-- One tick of the Reset Clock as executed by `limiter()`: exactly
`cap(limiterChan)` receives. -/
def limiterTick (ch : Chan) : Option Chan :=
  limiterDrain ch.cap ch

/-- `NewEasemob`: validate the five parameters, build the state (ticker of
period one second, permit channel of capacity 1, empty token) and start the
`limiter` goroutine. -/
def NewEasemob (host orgName appName clientId clientSecret : String) :
    Option Easemob :=
  if host.length < 1 || orgName.length < 1 || appName.length < 1 ||
      clientId.length < 1 || clientSecret.length < 1 then
    none
  else
    some
      { host := host
        orgName := orgName
        appName := appName
        clientId := clientId
        clientSecret := clientSecret
        client := ureqNew
        accessToken := ""
        accessTokenExpiresAt := 0
        limiterResetTicker := { interval := second, stopped := false }
        retiredTickers := []
        limiterChan := { cap := 1, buffered := 0, closed := false }
        limiterStarted := true }

/-- `Close`: stop the current ticker, close the permit channel and signal
the background loop to exit. -/
def Easemob.Close (eb : Easemob) : Easemob :=
  { eb with
    limiterResetTicker := { eb.limiterResetTicker with stopped := true }
    limiterChan := { eb.limiterChan with closed := true }
    limiterStarted := false }

/-- `SetLimiter`: overwrite the ticker field with a fresh ticker of period
`interval` and the channel field with a fresh open channel of capacity
`rate`.  The source calls no `Stop` on the displaced ticker, so it moves to
`retiredTickers` unchanged, still running. -/
def Easemob.SetLimiter (eb : Easemob) (rate : Nat) (interval : Int) : Easemob :=
  { eb with
    limiterResetTicker := { interval := interval, stopped := false }
    retiredTickers := eb.limiterResetTicker :: eb.retiredTickers
    limiterChan := { cap := rate, buffered := 0, closed := false } }

/-- `SetClientTimeout`: rebuild the transport template with the new
timeout. -/
def Easemob.SetClientTimeout (eb : Easemob) (timeout : Int) : Easemob :=
  { eb with client := { eb.client with timeout := timeout } }

/-- `GetBaseClient`: acquire the limiter, then return a clone of the
transport template with no credentials attached. -/
def Easemob.GetBaseClient (eb : Easemob) (cancelled pick : Bool) :
    CallRes Unit Client × Easemob :=
  match getLimiter eb.limiterChan cancelled pick with
  | (LimiterRes.ok, ch) =>
    (CallRes.ok eb.client.clone, { eb with limiterChan := ch })
  | (LimiterRes.ctxErr, ch) =>
    (CallRes.err (), { eb with limiterChan := ch })
  | (LimiterRes.blocked, ch) =>
    (CallRes.blocked, { eb with limiterChan := ch })
  | (LimiterRes.panicked, ch) =>
    (CallRes.panicked, { eb with limiterChan := ch })

/-- `RefreshToken`: acquire an unauthenticated client (through
`GetBaseClient`), perform the credential-exchange POST (its outcome is the
`oc` oracle), check `res.OK()`, parse the JSON, reject an empty or
whitespace-only access token, and only then install the new token with
expiry `now + expiresIn * second`.  The returned `Nat` counts the HTTP
refresh attempts actually performed (0 or 1). -/
def Easemob.RefreshToken (eb : Easemob) (cancelled pick : Bool)
    (oc : HttpOutcome) (now : Int) :
    CallRes RefreshErr Unit × Easemob × Nat :=
  match eb.GetBaseClient cancelled pick with
  | (CallRes.err _, eb1) => (CallRes.err RefreshErr.getClientErr, eb1, 0)
  | (CallRes.blocked, eb1) => (CallRes.blocked, eb1, 0)
  | (CallRes.panicked, eb1) => (CallRes.panicked, eb1, 0)
  | (CallRes.ok _, eb1) =>
    match oc with
    | HttpOutcome.err m => (CallRes.err (RefreshErr.transportErr m), eb1, 1)
    | HttpOutcome.res r =>
      if !r.ok then
        (CallRes.err (RefreshErr.statusErr r.status r.body), eb1, 1)
      else if !r.jsonOk then
        (CallRes.err RefreshErr.jsonErr, eb1, 1)
      else if (trimSpace r.parsed.accessToken).length < 1 then
        (CallRes.err RefreshErr.emptyTokenErr, eb1, 1)
      else
        (CallRes.ok (),
          { eb1 with
            accessToken := r.parsed.accessToken
            accessTokenExpiresAt := now + r.parsed.expiresIn * second },
          1)

/-- `GetAccessClient`: acquire the limiter; if the cached token is expired
(`accessTokenExpiresAt.Before(now)`) or empty, perform one `RefreshToken`
attempt; finally return a clone of the template carrying
`Authorization: Bearer <token>`.  The `Nat` counts HTTP refresh attempts. -/
def Easemob.GetAccessClient (eb : Easemob) (cancelled pick pick2 : Bool)
    (oc : HttpOutcome) (now : Int) :
    CallRes AccessErr Client × Easemob × Nat :=
  match getLimiter eb.limiterChan cancelled pick with
  | (LimiterRes.ctxErr, ch) =>
    (CallRes.err AccessErr.limiterErr, { eb with limiterChan := ch }, 0)
  | (LimiterRes.blocked, ch) =>
    (CallRes.blocked, { eb with limiterChan := ch }, 0)
  | (LimiterRes.panicked, ch) =>
    (CallRes.panicked, { eb with limiterChan := ch }, 0)
  | (LimiterRes.ok, ch) =>
    let eb1 := { eb with limiterChan := ch }
    if eb1.accessTokenExpiresAt < now || eb1.accessToken.length < 1 then
      match eb1.RefreshToken cancelled pick2 oc now with
      | (CallRes.err e, eb2, k) =>
        (CallRes.err (AccessErr.refreshTokenErr e), eb2, k)
      | (CallRes.blocked, eb2, k) => (CallRes.blocked, eb2, k)
      | (CallRes.panicked, eb2, k) => (CallRes.panicked, eb2, k)
      | (CallRes.ok _, eb2, k) =>
        (CallRes.ok
          ((eb2.client.clone).set "Authorization" ("Bearer " ++ eb2.accessToken)),
          eb2, k)
    else
      (CallRes.ok
        ((eb1.client.clone).set "Authorization" ("Bearer " ++ eb1.accessToken)),
        eb1, 0)

/-- Iterated uncancelled `acquire` calls: `some` of the final channel state
when every call is admitted immediately, `none` as soon as one is not. -/
def acquireRepeat (ch : Chan) : Nat → Option Chan
  | 0 => some ch
  | n + 1 =>
    match getLimiter ch false true with
    | (LimiterRes.ok, ch1) => acquireRepeat ch1 n
    | _ => none

/-- A sample client state for instantiating theorems on concrete inputs: a
capacity-2 open pool and a cached token `old` that expires at instant 3. -/
def ebOldTok : Easemob :=
  { host := "h", orgName := "o", appName := "a", clientId := "c",
    clientSecret := "s", client := ureqNew, accessToken := "old",
    accessTokenExpiresAt := 3,
    limiterResetTicker := { interval := second, stopped := false },
    retiredTickers := [],
    limiterChan := { cap := 2, buffered := 0, closed := false },
    limiterStarted := true }

/-- A string is empty exactly when its length is below one (the code's
`len(s) < 1` test). -/
theorem string_length_lt_one_iff (s : String) : s.length < 1 ↔ s = "" := by
  constructor
  · intro hlt
    cases s with
    | mk data =>
      cases data with
      | nil => rfl
      | cons x xs => simp [String.length] at hlt
  · intro he
    subst he
    decide

/-- A string is empty exactly when its length is zero. -/
theorem string_length_eq_zero_iff (s : String) : s.length = 0 ↔ s = "" := by
  rw [← Nat.lt_one_iff]
  exact string_length_lt_one_iff s

/-- A nonempty string passes the code's `len(s) < 1` test. -/
theorem string_not_length_lt_one (s : String) (h : s ≠ "") : ¬ s.length < 1 := by
  intro hlt
  exact h ((string_length_lt_one_iff s).mp hlt)

/-- Uncancelled acquisitions on an open channel with room are admitted one
by one, each raising the occupancy by one. -/
theorem acquireRepeat_fills (N : Nat) :
    ∀ n k, k + n ≤ N →
      acquireRepeat { cap := N, buffered := k, closed := false } n =
        some { cap := N, buffered := k + n, closed := false } := by
  intro n
  induction n with
  | zero => intro k hk; simp [acquireRepeat]
  | succ n ih =>
    intro k hk
    have hk1 : k < N := by omega
    have step :
        getLimiter { cap := N, buffered := k, closed := false } false true =
          (LimiterRes.ok, { cap := N, buffered := k + 1, closed := false }) := by
      simp [getLimiter, chanSend, hk1]
    rw [acquireRepeat, step]
    show acquireRepeat { cap := N, buffered := k + 1, closed := false } n =
      some { cap := N, buffered := k + (n + 1), closed := false }
    have h2 := ih (k + 1) (by omega)
    rw [h2]
    have h3 : k + 1 + n = k + (n + 1) := by omega
    rw [h3]

/-- C1: the claim says a reset tick returns the Permit Pool to zero
occupancy in one atomic step regardless of how many permits were
outstanding.  The code instead performs exactly `cap` one-by-one receives:
with 1 of 2 permits outstanding the tick empties the pool and then blocks
waiting for a future acquisition (result `none`), while with the pool full
it does complete with occupancy 0. -/
theorem c1_reset_tick_blocks_when_pool_not_full :
    limiterTick { cap := 2, buffered := 1, closed := false } = none ∧
    limiterTick { cap := 2, buffered := 2, closed := false } =
      some { cap := 2, buffered := 0, closed := false } := by
  decide

/-- C2: the claim says `SetLimiter` stops the previous Reset Clock before
installing the new ticker and pool.  In the code `SetLimiter` merely
overwrites the fields: starting from a fresh client, after
`SetLimiter 10 (2 * second)` the displaced one-second ticker is still
running (`stopped = false`) while the new ticker and the capacity-10 pool
are installed. -/
theorem c2_setLimiter_leaves_old_ticker_running :
    (NewEasemob "h" "o" "a" "c" "s").map (fun eb =>
      ((eb.SetLimiter 10 (2 * second)).retiredTickers.map Ticker.stopped,
        (eb.SetLimiter 10 (2 * second)).limiterResetTicker,
        (eb.SetLimiter 10 (2 * second)).limiterChan.cap)) =
      some ([false], { interval := 2 * second, stopped := false }, 10) := by
  decide

/-- C3: with a pool of capacity N, empty and with no intervening reset, the
first N uncancelled `acquire` calls are admitted immediately (filling the
pool), and the next call does not succeed: it blocks if the context is
live, and returns the cancellation error once the context fires. -/
theorem c3_first_rate_acquires_succeed_then_block (N : Nat) :
    acquireRepeat { cap := N, buffered := 0, closed := false } N =
      some { cap := N, buffered := N, closed := false } ∧
    (∀ p, (getLimiter { cap := N, buffered := N, closed := false } false p).1 =
      LimiterRes.blocked) ∧
    (∀ p, (getLimiter { cap := N, buffered := N, closed := false } true p).1 =
      LimiterRes.ctxErr) := by
  refine ⟨?_, ?_, ?_⟩
  · have h := acquireRepeat_fills N N 0 (by omega)
    simpa using h
  · intro p
    simp [getLimiter]
  · intro p
    simp [getLimiter]

/-- C4 counterexample: the claim says a returned ttl of 0 makes the token
be treated as never expiring.  On the code, refreshing at time 0 with
`expires_in = 0` succeeds and stores expiry 0 (the refresh instant); at
time 1 the authenticated path already judges the token expired and performs
a refresh attempt (count 1), so the token is not treated as never
expiring. -/
theorem c4_ttl_zero_treated_as_expired :
    (NewEasemob "h" "o" "a" "c" "s").map (fun eb0 =>
      let st := eb0.SetLimiter 10 second
      let r : HttpResponse :=
        { ok := true, status := "200 OK", body := "", jsonOk := true,
          parsed := { application := "app", accessToken := "tok", expiresIn := 0 } }
      let st1 := (st.RefreshToken false true (HttpOutcome.res r) 0).2.1
      (st1.accessToken, st1.accessTokenExpiresAt,
        (st1.GetAccessClient false true true (HttpOutcome.res r) 1).2.2)) =
      some ("tok", 0, 1) := by
  decide

/-- C4 (amended): whenever the cached token is empty and the limiter admits
both acquisitions of the path, `GetAccessClient` performs exactly one
refresh attempt (also when the attempt fails with a transport error); on
refresh success the cached token equals the newly returned token, the
cached expiry equals the refresh time plus the returned ttl in seconds (so
ttl = 0 yields expiry equal to the refresh instant), and the returned
handle carries the new bearer token. -/
theorem c4_empty_token_exactly_one_refresh (eb : Easemob) (r : HttpResponse)
    (now : Int) (p p2 : Bool)
    (hempty : eb.accessToken = "")
    (hcl : eb.limiterChan.closed = false)
    (hroom : eb.limiterChan.buffered + 1 < eb.limiterChan.cap)
    (hok : r.ok = true) (hjson : r.jsonOk = true)
    (htok : trimSpace r.parsed.accessToken ≠ "") :
    (eb.GetAccessClient false p p2 (HttpOutcome.res r) now).2.2 = 1 ∧
    (eb.GetAccessClient false p p2 (HttpOutcome.res r) now).2.1.accessToken =
      r.parsed.accessToken ∧
    (eb.GetAccessClient false p p2 (HttpOutcome.res r) now).2.1.accessTokenExpiresAt =
      now + r.parsed.expiresIn * second ∧
    (eb.GetAccessClient false p p2 (HttpOutcome.res r) now).1 =
      CallRes.ok
        ((eb.client.clone).set "Authorization" ("Bearer " ++ r.parsed.accessToken)) ∧
    (∀ m, (eb.GetAccessClient false p p2 (HttpOutcome.err m) now).2.2 = 1) := by
  have hr1 : eb.limiterChan.buffered < eb.limiterChan.cap := by omega
  have hlen : eb.accessToken.length < 1 := by
    rw [hempty]
    decide
  have htoklen : ¬ (trimSpace r.parsed.accessToken).length < 1 :=
    string_not_length_lt_one _ htok
  simp [Easemob.GetAccessClient, Easemob.RefreshToken, Easemob.GetBaseClient,
    getLimiter, chanSend, hcl, hr1, hroom, hlen, hok, hjson, htoklen,
    Client.clone]

/-- C4 witness: the amended theorem instantiated on a concrete client with
an empty token and a roomy pool, and a concrete successful response. -/
theorem c4_empty_token_exactly_one_refresh_witness :
    (Easemob.GetAccessClient
      { host := "h", orgName := "o", appName := "a", clientId := "c",
        clientSecret := "s", client := ureqNew, accessToken := "",
        accessTokenExpiresAt := 0,
        limiterResetTicker := { interval := second, stopped := false },
        retiredTickers := [],
        limiterChan := { cap := 4, buffered := 0, closed := false },
        limiterStarted := true }
      false true true
      (HttpOutcome.res
        { ok := true, status := "200 OK", body := "", jsonOk := true,
          parsed := { application := "app", accessToken := "tok", expiresIn := 5 } })
      100).2.2 = 1 :=
  (c4_empty_token_exactly_one_refresh _ _ 100 true true rfl rfl (by decide)
    rfl rfl (by decide)).1

/-- C5: whenever the cached token is non-empty and its expiry is strictly
after now, the authenticated path performs no refresh attempt and returns a
handle carrying the existing cached token. -/
theorem c5_valid_token_no_refresh (eb : Easemob) (now : Int) (p p2 : Bool)
    (oc : HttpOutcome)
    (htok : eb.accessToken ≠ "")
    (hexp : now < eb.accessTokenExpiresAt)
    (hcl : eb.limiterChan.closed = false)
    (hroom : eb.limiterChan.buffered < eb.limiterChan.cap) :
    (eb.GetAccessClient false p p2 oc now).2.2 = 0 ∧
    (eb.GetAccessClient false p p2 oc now).1 =
      CallRes.ok
        ((eb.client.clone).set "Authorization" ("Bearer " ++ eb.accessToken)) ∧
    (eb.GetAccessClient false p p2 oc now).2.1.accessToken = eb.accessToken ∧
    (eb.GetAccessClient false p p2 oc now).2.1.accessTokenExpiresAt =
      eb.accessTokenExpiresAt := by
  have hnotexp : ¬ eb.accessTokenExpiresAt < now := by omega
  have hlen : ¬ eb.accessToken.length < 1 := string_not_length_lt_one _ htok
  simp [Easemob.GetAccessClient, getLimiter, chanSend, hcl, hroom, hnotexp,
    hlen, Client.clone]

/-- C5 witness: a concrete client holding token `tok` with expiry 10,
queried at time 5, performs no refresh and returns the cached token. -/
theorem c5_valid_token_no_refresh_witness :
    (Easemob.GetAccessClient
      { host := "h", orgName := "o", appName := "a", clientId := "c",
        clientSecret := "s", client := ureqNew, accessToken := "tok",
        accessTokenExpiresAt := 10,
        limiterResetTicker := { interval := second, stopped := false },
        retiredTickers := [],
        limiterChan := { cap := 2, buffered := 0, closed := false },
        limiterStarted := true }
      false true true (HttpOutcome.err "net down") 5).2.2 = 0 :=
  (c5_valid_token_no_refresh _ 5 true true (HttpOutcome.err "net down")
    (by decide) (by decide) rfl (by decide)).1

/-- C6: every failed refresh attempt returns an error and leaves the cached
token and expiry untouched: a transport error is wrapped as such; a
non-success HTTP status yields the error carrying the status and the body
text; a syntactically valid response whose access token is empty or
whitespace-only yields the empty-token error. -/
theorem c6_refresh_failure_preserves_cache (eb : Easemob) (p : Bool)
    (now : Int)
    (hcl : eb.limiterChan.closed = false)
    (hroom : eb.limiterChan.buffered < eb.limiterChan.cap) :
    (∀ m,
      (eb.RefreshToken false p (HttpOutcome.err m) now).1 =
        CallRes.err (RefreshErr.transportErr m) ∧
      (eb.RefreshToken false p (HttpOutcome.err m) now).2.1.accessToken =
        eb.accessToken ∧
      (eb.RefreshToken false p (HttpOutcome.err m) now).2.1.accessTokenExpiresAt =
        eb.accessTokenExpiresAt) ∧
    (∀ r, r.ok = false →
      (eb.RefreshToken false p (HttpOutcome.res r) now).1 =
        CallRes.err (RefreshErr.statusErr r.status r.body) ∧
      (eb.RefreshToken false p (HttpOutcome.res r) now).2.1.accessToken =
        eb.accessToken ∧
      (eb.RefreshToken false p (HttpOutcome.res r) now).2.1.accessTokenExpiresAt =
        eb.accessTokenExpiresAt) ∧
    (∀ r, r.ok = true → r.jsonOk = true → trimSpace r.parsed.accessToken = "" →
      (eb.RefreshToken false p (HttpOutcome.res r) now).1 =
        CallRes.err RefreshErr.emptyTokenErr ∧
      (eb.RefreshToken false p (HttpOutcome.res r) now).2.1.accessToken =
        eb.accessToken ∧
      (eb.RefreshToken false p (HttpOutcome.res r) now).2.1.accessTokenExpiresAt =
        eb.accessTokenExpiresAt) := by
  refine ⟨?_, ?_, ?_⟩
  · intro m
    simp [Easemob.RefreshToken, Easemob.GetBaseClient, getLimiter, chanSend,
      hcl, hroom]
  · intro r hro
    simp [Easemob.RefreshToken, Easemob.GetBaseClient, getLimiter, chanSend,
      hcl, hroom, hro]
  · intro r hro hj htr
    have hlt : (trimSpace r.parsed.accessToken).length < 1 := by
      rw [htr]
      decide
    simp [Easemob.RefreshToken, Easemob.GetBaseClient, getLimiter, chanSend,
      hcl, hroom, hro, hj, hlt]

/-- C6 witness: the spec scenario — a refresh answered with HTTP 401 and
body text on a concrete client returns the status-and-body error and leaves
the cached token `old` and expiry 3 unchanged. -/
theorem c6_refresh_failure_preserves_cache_witness :
    (ebOldTok.RefreshToken false true
        (HttpOutcome.res
          { ok := false, status := "401 Unauthorized",
            body := "\x7b\"error\":\"invalid_client\"\x7d", jsonOk := false,
            parsed := { application := "", accessToken := "", expiresIn := 0 } })
        9).1 =
      CallRes.err
        (RefreshErr.statusErr "401 Unauthorized"
          "\x7b\"error\":\"invalid_client\"\x7d") ∧
    (ebOldTok.RefreshToken false true
        (HttpOutcome.res
          { ok := false, status := "401 Unauthorized",
            body := "\x7b\"error\":\"invalid_client\"\x7d", jsonOk := false,
            parsed := { application := "", accessToken := "", expiresIn := 0 } })
        9).2.1.accessToken = "old" :=
  have h :=
    (c6_refresh_failure_preserves_cache ebOldTok true 9 rfl (by decide)).2.1
      { ok := false, status := "401 Unauthorized",
        body := "\x7b\"error\":\"invalid_client\"\x7d", jsonOk := false,
        parsed := { application := "", accessToken := "", expiresIn := 0 } }
      rfl
  ⟨h.1, h.2.1⟩

/-- C7: when the caller's context fires while `acquire` is blocked on a
full pool, the call returns the cancellation error and the pool occupancy
is unchanged — whichever way the select would have chosen, since the send
case is not ready. -/
theorem c7_cancel_blocked_acquire_no_leak (ch : Chan) (p : Bool)
    (hfull : ch.cap ≤ ch.buffered) (hcl : ch.closed = false) :
    getLimiter ch true p = (LimiterRes.ctxErr, ch) := by
  have hnr : ¬ ch.buffered < ch.cap := by omega
  simp [getLimiter, hcl, hnr]

/-- C7 witness: cancelling while blocked on a full capacity-2 pool returns
the cancellation error and leaves occupancy at 2. -/
theorem c7_cancel_blocked_acquire_no_leak_witness :
    getLimiter { cap := 2, buffered := 2, closed := false } true false =
      (LimiterRes.ctxErr, { cap := 2, buffered := 2, closed := false }) :=
  c7_cancel_blocked_acquire_no_leak _ false (by decide) rfl

/-- C8: construction fails exactly when one of the five arguments is empty
(returning no client), and on success the returned state carries the five
identifiers, an empty token cache, the default capacity-1 open pool, and
the started background reset loop. -/
theorem c8_construct_validates_five_params (h o a c s : String) :
    (NewEasemob h o a c s = none ↔
      (h = "" ∨ o = "" ∨ a = "" ∨ c = "" ∨ s = "")) ∧
    (∀ eb, NewEasemob h o a c s = some eb →
      eb.limiterStarted = true ∧ eb.host = h ∧ eb.orgName = o ∧
      eb.appName = a ∧ eb.clientId = c ∧ eb.clientSecret = s ∧
      eb.accessToken = "" ∧
      eb.limiterChan = { cap := 1, buffered := 0, closed := false }) := by
  have key : (decide (h.length < 1) || decide (o.length < 1) ||
      decide (a.length < 1) || decide (c.length < 1) ||
      decide (s.length < 1)) = true ↔
      (h = "" ∨ o = "" ∨ a = "" ∨ c = "" ∨ s = "") := by
    simp only [Bool.or_eq_true, decide_eq_true_eq, Nat.lt_one_iff,
      string_length_eq_zero_iff]
    tauto
  constructor
  · rw [NewEasemob]
    split
    next hb => simpa using key.mp hb
    next hb =>
      have hnd : ¬ (h = "" ∨ o = "" ∨ a = "" ∨ c = "" ∨ s = "") := fun hd =>
        hb (key.mpr hd)
      simp [hnd]
  · intro eb heb
    rw [NewEasemob] at heb
    split at heb
    · exact absurd heb (by simp)
    · injection heb with h1
      subst h1
      exact ⟨rfl, rfl, rfl, rfl, rfl, rfl, rfl, rfl⟩

/-- C8 witness: an empty host makes construction fail with no client, and
a fully supplied construction returns a client with the loop started. -/
theorem c8_construct_validates_five_params_witness :
    NewEasemob "" "o" "a" "c" "s" = none ∧
    ∃ eb, NewEasemob "h" "o" "a" "c" "s" = some eb ∧ eb.limiterStarted = true :=
  ⟨(c8_construct_validates_five_params "" "o" "a" "c" "s").1.mpr (Or.inl rfl),
    ⟨_, rfl,
      ((c8_construct_validates_five_params "h" "o" "a" "c" "s").2 _ rfl).1⟩⟩

/-- C9: a freshly constructed client has the default limiter: a capacity-1
pool and a one-second ticker; the first acquisition is admitted and fills
the pool, and a further acquisition blocks until a reset. -/
theorem c9_default_limiter_one_per_second (h o a c s : String) (eb : Easemob)
    (hc : NewEasemob h o a c s = some eb) :
    eb.limiterChan = { cap := 1, buffered := 0, closed := false } ∧
    eb.limiterResetTicker = { interval := second, stopped := false } ∧
    getLimiter eb.limiterChan false true =
      (LimiterRes.ok, { cap := 1, buffered := 1, closed := false }) ∧
    (∀ p, (getLimiter { cap := 1, buffered := 1, closed := false } false p).1 =
      LimiterRes.blocked) := by
  rw [NewEasemob] at hc
  split at hc
  · exact absurd hc (by simp)
  · injection hc with h1
    subst h1
    exact ⟨rfl, rfl, rfl, fun p => rfl⟩

/-- C9 witness: the default limiter facts on a concretely constructed
client. -/
theorem c9_default_limiter_one_per_second_witness :
    ∃ eb, NewEasemob "h" "o" "a" "c" "s" = some eb ∧
      eb.limiterChan = { cap := 1, buffered := 0, closed := false } ∧
      eb.limiterResetTicker = { interval := second, stopped := false } :=
  ⟨_, rfl,
    (c9_default_limiter_one_per_second "h" "o" "a" "c" "s" _ rfl).1,
    (c9_default_limiter_one_per_second "h" "o" "a" "c" "s" _ rfl).2.1⟩

/-- C10: after `Close` has closed the permit channel, every uncancelled
acquire attempt — directly through `getLimiter`, or through
`GetBaseClient`, `RefreshToken` or `GetAccessClient` (hence every push or
refresh call) — panics by sending on the closed channel instead of
returning an error value. -/
theorem c10_acquire_after_close_panics (eb : Easemob) (p p2 : Bool)
    (oc : HttpOutcome) (now : Int) :
    (getLimiter eb.Close.limiterChan false p).1 = LimiterRes.panicked ∧
    (eb.Close.GetBaseClient false p).1 = CallRes.panicked ∧
    (eb.Close.RefreshToken false p oc now).1 = CallRes.panicked ∧
    (eb.Close.GetAccessClient false p p2 oc now).1 = CallRes.panicked := by
  simp [Easemob.Close, Easemob.GetBaseClient, Easemob.RefreshToken,
    Easemob.GetAccessClient, getLimiter, chanSend]
